import Mathlib

/-!
Verification of the sprite-sheet playback core of the
AI-Sprite-Sheet-Generator repository, as a shallow embedding in Lean.

Sources embedded:

* the `SpritePlayer` component (second document of
  src/components/FileUpload.tsx): frame-geometry resolution on image load
  (lines 112-131), the interval-driven playback clock (lines 134-155),
  offset derivation (lines 142-150), the preview scale (lines 159-162)
  and the render guard (lines 164-166);
* the `App` component (src/unnamed/part_000): aspect-ratio classification
  inside `handleGenerate` (lines 38-53) and the columns/rows input
  clamping (lines 116 and 129).

JavaScript numbers are modelled as exact rationals; every division a
theorem below evaluates has a nonzero divisor, where rational and IEEE
semantics agree on the stated equalities and sign facts.  The JavaScript
`%` operator on integers is `Int.tmod` (truncated remainder, taking the
sign of the dividend) and `Math.floor` composed with `/` is `Int.floor`
of the exact quotient.  JavaScript truthiness of a number appears only
through "equal to 0 or not" tests, mirroring the source's `!x` guards on
values that are zero-initialised numbers.
-/

namespace SpritePlayer

/-- Pixel dimensions of the full sheet or of a single frame, mirroring the
two `{ width, height }` state records of `SpritePlayer` (line 106-107). -/
structure Dimensions where
  width : ℚ
  height : ℚ
deriving DecidableEq

/-- Row count recomputed by the load handler:
`const rows = Math.ceil(frames / columns);` (line 117). -/
def effectiveRows (frames columns : ℤ) : ℤ :=
  ⌈(frames : ℚ) / (columns : ℚ)⌉

/-- Frame geometry computed by the load handler (lines 117-122):
`width: img.naturalWidth / columns, height: img.naturalHeight / rows`
with `rows` recomputed by `effectiveRows`; the declared row count is not
an input.  The computation is a plain expression with no validation and
no failure path. -/
def resolve (naturalWidth naturalHeight : ℚ) (frames columns : ℤ) : Dimensions :=
  { width := naturalWidth / (columns : ℚ)
  , height := naturalHeight / ((effectiveRows frames columns : ℤ) : ℚ) }

/-- State of one `SpritePlayer` instance: the props `columns`, `frames`,
`fps`, `isPlaying` (lines 99-105), the two dimension records (lines
106-107), the `currentFrame` ref (line 109) and the background position
last written to the player element (lines 127 and 150), as a pair of
pixel offsets. -/
structure PlayerState where
  columns : ℤ
  frames : ℤ
  fps : ℚ
  isPlaying : Bool
  spriteDimensions : Dimensions
  frameDimensions : Dimensions
  currentFrame : ℤ
  backgroundPosition : ℚ × ℚ
deriving DecidableEq

/-- Freshly mounted component: both dimension records start at
`{ width: 0, height: 0 }` (lines 106-107), the frame ref at 0 (line 109),
and no background translation has been applied. -/
def initState (columns frames : ℤ) (fps : ℚ) (isPlaying : Bool) : PlayerState :=
  { columns := columns
  , frames := frames
  , fps := fps
  , isPlaying := isPlaying
  , spriteDimensions := ⟨0, 0⟩
  , frameDimensions := ⟨0, 0⟩
  , currentFrame := 0
  , backgroundPosition := (0, 0) }

/-- The `img.onload` handler (lines 116-128): store the sheet's natural
dimensions, recompute the frame dimensions via `resolve`, reset
`currentFrame.current` to 0 and the background position to `0px 0px`.
The `isPlaying` prop is not touched. -/
def onImageLoad (s : PlayerState) (naturalWidth naturalHeight : ℚ) : PlayerState :=
  { s with
    spriteDimensions := ⟨naturalWidth, naturalHeight⟩
  , frameDimensions := resolve naturalWidth naturalHeight s.frames s.columns
  , currentFrame := 0
  , backgroundPosition := (0, 0) }

/-- Negation of the early return of the animation effect (line 135):
`if (!isPlaying || !frameDimensions.width || !frameDimensions.height || fps <= 0) return;`
The interval is installed exactly when this guard holds.  A zero number
is falsy in JavaScript, hence the `≠ 0` tests.  The `frames` prop is not
consulted. -/
def tickGuard (s : PlayerState) : Bool :=
  s.isPlaying
    && decide (s.frameDimensions.width ≠ 0)
    && decide (s.frameDimensions.height ≠ 0)
    && decide (0 < s.fps)

/-- Background translation for a frame index (lines 142-146):
`frameX = i % columns`, `frameY = Math.floor(i / columns)`,
`x = -frameX * width`, `y = -frameY * height`. -/
def frameOffset (index columns : ℤ) (frame : Dimensions) : ℚ × ℚ :=
  ( -((Int.tmod index columns : ℤ) : ℚ) * frame.width
  , -((⌊(index : ℚ) / (columns : ℚ)⌋ : ℤ) : ℚ) * frame.height )

/-- One firing of the interval callback (lines 139-151), guarded by the
effect's early return: advance `currentFrame.current` by
`(currentFrame.current + 1) % frames` and write the derived background
position.  When the guard fails no interval exists and the state is
untouched. -/
def tick (s : PlayerState) : PlayerState :=
  if tickGuard s then
    let next := Int.tmod (s.currentFrame + 1) s.frames
    { s with
      currentFrame := next
    , backgroundPosition := frameOffset next s.columns s.frameDimensions }
  else s

/-- The interval installed by the animation effect, when any: its period is
`1000 / fps` milliseconds (line 152).  The effect's cleanup (line 154)
clears it whenever any dependency (`isPlaying, fps, frames, columns,
frameDimensions`, line 155) changes, so the live interval is always the
one determined by the current state. -/
def activeTimer (s : PlayerState) : Option ℚ :=
  if tickGuard s then some (1000 / s.fps) else none

/-- An `fps` prop change (the App's fps slider): the effect re-runs with
the new period; `currentFrame` is a ref and is not reset. -/
def setFps (s : PlayerState) (v : ℚ) : PlayerState :=
  { s with fps := v }

/-- What the component hands to the display surface when it renders
(lines 168-186): the frame box, the full sheet size used as
`backgroundSize`, and the preview scale. -/
structure RenderedView where
  frame : Dimensions
  sheet : Dimensions
  scale : ℚ
deriving DecidableEq

/-- Preview scale factor (lines 159-162). -/
def previewScale (s : PlayerState) : ℚ :=
  if 0 < s.frameDimensions.width then
    max 1 (min (256 / s.frameDimensions.width) (256 / s.frameDimensions.height))
  else 1

/-- The component's return value (lines 164-186): `null` while
`frameDimensions.width === 0`, otherwise the styled player element. -/
def render (s : PlayerState) : Option RenderedView :=
  if s.frameDimensions.width = 0 then none
  else some
    { frame := s.frameDimensions
    , sheet := s.spriteDimensions
    , scale := previewScale s }

/-- Branch chain of the aspect-ratio selection over the computed ratio
(part_000 lines 43-53). -/
def classifyRatio (ratio : ℚ) : String :=
  if ratio > (16 / 9 + 4 / 3) / 2 then "16:9"
  else if ratio > (4 / 3 + 1 / 1) / 2 then "4:3"
  else if ratio > (1 / 1 + 3 / 4) / 2 then "1:1"
  else if ratio > (3 / 4 + 9 / 16) / 2 then "3:4"
  else "9:16"

/-- Aspect-ratio classification in `handleGenerate` (part_000 lines
38-53): `const calculatedRatio = columns / rows;` followed by the branch
chain. -/
def classify (columns rows : ℤ) : String :=
  classifyRatio ((columns : ℚ) / (rows : ℚ))

/-- The five labels of the `AspectRatio` union type (part_000 line 40). -/
def canonicalRatios : List String :=
  ["1:1", "3:4", "4:3", "9:16", "16:9"]

/-- Numeric value of a list of decimal digits, most significant first. -/
def digitsVal (l : List Char) : ℕ :=
  l.foldl (fun acc c => 10 * acc + (c.toNat - Char.toNat '0')) 0

/-- Longest leading run of decimal digits, or `none` when there is none. -/
def parseDigits (l : List Char) : Option ℕ :=
  let digits := l.takeWhile Char.isDigit
  if digits.isEmpty then none else some (digitsVal digits)

/-- The JavaScript builtin `parseInt(str, 10)` as used by the grid
inputs: skip leading spaces, read an optional sign and then the longest
decimal-digit prefix; when no digit is found the result is `NaN`,
modelled as `none`. -/
def parseIntDec (str : String) : Option ℤ :=
  match str.data.dropWhile (fun c => c = ' ') with
  | '-' :: r => (parseDigits r).map (fun n => -(n : ℤ))
  | '+' :: r => (parseDigits r).map (fun n => (n : ℤ))
  | r => (parseDigits r).map (fun n => (n : ℤ))

/-- The `onChange` handler of the columns and rows inputs (part_000
lines 116 and 129): `Math.max(1, parseInt(e.target.value, 10))`.
`Math.max` propagates `NaN`, so a non-numeric input produces `NaN`
(`none`), not a clamped integer. -/
def clampGridInput (value : String) : Option ℤ :=
  (parseIntDec value).map (fun n => max 1 n)

/-- Error label of the specification's section 4.2 / section 7 taxonomy. -/
inductive GeometryError where
  | invalidGeometry
deriving DecidableEq

/-- Specification-side resolver, following the words of section 4.2:
"fails with `InvalidGeometry` if `grid.columns ≤ 0`, `frameCount ≤ 0`,
or sheet dimensions are non-positive", otherwise the same geometry as
`resolve`.  This is a comparison definition only; no such check exists
anywhere in `SpritePlayer`. -/
def resolveChecked (naturalWidth naturalHeight : ℚ) (frames columns : ℤ) :
    Except GeometryError Dimensions :=
  if columns ≤ 0 ∨ frames ≤ 0 ∨ naturalWidth ≤ 0 ∨ naturalHeight ≤ 0 then
    Except.error GeometryError.invalidGeometry
  else
    Except.ok (resolve naturalWidth naturalHeight frames columns)

/-- A concrete mid-playback state: a 512 times 512 sheet already loaded
as a 4 by 4 grid of 16 frames, playing at 12 fps, on frame 5. -/
def midPlaybackState : PlayerState :=
  { columns := 4
  , frames := 16
  , fps := 12
  , isPlaying := true
  , spriteDimensions := ⟨512, 512⟩
  , frameDimensions := ⟨128, 128⟩
  , currentFrame := 5
  , backgroundPosition := (-128, -128) }

/-- A state whose geometry is still the one of a previously loaded sheet
(nonzero 128 times 128 frames) while the `frames` prop has become 0: the
transient configuration the animation effect sees when the grid props
change before the replacement image finishes loading. -/
def staleFramesState : PlayerState :=
  { columns := 4
  , frames := 0
  , fps := 12
  , isPlaying := true
  , spriteDimensions := ⟨512, 512⟩
  , frameDimensions := ⟨128, 128⟩
  , currentFrame := 0
  , backgroundPosition := (0, 0) }

lemma tickGuard_eq_true (s : PlayerState) :
    tickGuard s = true ↔
      s.isPlaying = true ∧ s.frameDimensions.width ≠ 0 ∧
        s.frameDimensions.height ≠ 0 ∧ 0 < s.fps := by
  simp [tickGuard, and_assoc]

/-- C1 (counterexample): loading a new sheet while the clock is Running
does not transition it to Stopped.  Starting from a playing state, after
`onImageLoad` the `isPlaying` flag is still `true` and a timer with
period `1000 / 12` is immediately active for the new sheet's geometry,
with no explicit re-entry into Running by the caller. -/
theorem onImageLoad_not_stopped_counterexample :
    (onImageLoad midPlaybackState 512 512).isPlaying = true ∧
      activeTimer (onImageLoad midPlaybackState 512 512) = some (1000 / 12) := by
  have hg : tickGuard (onImageLoad midPlaybackState 512 512) = true := by
    rw [tickGuard_eq_true]
    refine ⟨rfl, ?_, ?_, by norm_num [onImageLoad, midPlaybackState]⟩ <;>
      norm_num [onImageLoad, midPlaybackState, resolve, effectiveRows]
  refine ⟨rfl, ?_⟩
  unfold activeTimer
  rw [hg]
  norm_num [onImageLoad, midPlaybackState]

/-- C1 (amended): when a new sheet image finishes loading, the frame
index resets to 0, the background position returns to `(0, 0)` and the
geometry is rebuilt from the new natural dimensions, so the timer torn
down with the old geometry is replaced; but the running flag is left
unchanged, and if the clock was Running (with usable new geometry and a
positive fps) a timer at period `1000 / fps` runs immediately, without
the caller re-entering Running. -/
theorem onImageLoad_resets_index_preserves_running (s : PlayerState) (w h : ℚ) :
    (onImageLoad s w h).currentFrame = 0 ∧
    (onImageLoad s w h).backgroundPosition = (0, 0) ∧
    (onImageLoad s w h).isPlaying = s.isPlaying ∧
    (onImageLoad s w h).frameDimensions = resolve w h s.frames s.columns ∧
    (s.isPlaying = true → 0 < s.fps →
      (resolve w h s.frames s.columns).width ≠ 0 →
      (resolve w h s.frames s.columns).height ≠ 0 →
      activeTimer (onImageLoad s w h) = some (1000 / s.fps)) := by
  refine ⟨rfl, rfl, rfl, rfl, fun hp hf hw hh => ?_⟩
  have hg : tickGuard (onImageLoad s w h) = true :=
    (tickGuard_eq_true _).mpr ⟨hp, hw, hh, hf⟩
  unfold activeTimer
  rw [hg]
  simp [onImageLoad]

/-- Witness for the amended C1 theorem at the concrete mid-playback
state and a 512 by 512 sheet. -/
theorem onImageLoad_resets_index_preserves_running_witness :
    (onImageLoad midPlaybackState 512 512).currentFrame = 0 ∧
      activeTimer (onImageLoad midPlaybackState 512 512) =
        some (1000 / midPlaybackState.fps) := by
  refine ⟨(onImageLoad_resets_index_preserves_running midPlaybackState 512 512).1,
    (onImageLoad_resets_index_preserves_running midPlaybackState 512 512).2.2.2.2
      rfl (by norm_num [midPlaybackState]) ?_ ?_⟩ <;>
    norm_num [midPlaybackState, resolve, effectiveRows]

/-- C2 (counterexample): the animation guard does not examine the
`frames` prop.  In a playing state whose geometry is the (nonzero) one
of a previously loaded sheet while `frames` has become 0, the guard
holds and a timer with period `1000 / 12` is active, so ticks fire even
though the frame count is not positive. -/
theorem tickGuard_ignores_frames_counterexample :
    staleFramesState.frames ≤ 0 ∧ tickGuard staleFramesState = true ∧
      activeTimer staleFramesState = some (1000 / 12) := by
  have hg : tickGuard staleFramesState = true := by
    rw [tickGuard_eq_true]
    refine ⟨rfl, ?_, ?_, ?_⟩ <;> norm_num [staleFramesState]
  refine ⟨by norm_num [staleFramesState], hg, ?_⟩
  unfold activeTimer
  rw [hg]
  norm_num [staleFramesState]

/-- C2 (amended): the clock performs no tick and the state is unchanged
whenever `framesPerSecond ≤ 0` or the frame width is zero or the frame
height is zero — in particular while the geometry is unresolved, both
dimensions still being zero.  (`frameCount ≤ 0` is not part of the
guard, as the counterexample shows.) -/
theorem tick_noop_of_guard_violation (s : PlayerState)
    (h : s.fps ≤ 0 ∨ s.frameDimensions.width = 0 ∨ s.frameDimensions.height = 0) :
    tickGuard s = false ∧ tick s = s ∧ activeTimer s = none := by
  have hg : tickGuard s = false := by
    rcases h with h | h | h
    · have : ¬ (0 < s.fps) := not_lt.mpr h
      simp [tickGuard, this]
    · simp [tickGuard, h]
    · simp [tickGuard, h]
  exact ⟨hg, by simp [tick, hg], by simp [activeTimer, hg]⟩

/-- Witness for the amended C2 theorem: a freshly mounted player with
fps 0 neither ticks nor owns a timer. -/
theorem tick_noop_of_guard_violation_witness :
    tick (initState 4 16 0 true) = initState 4 16 0 true ∧
      activeTimer (initState 4 16 0 true) = none :=
  ⟨(tick_noop_of_guard_violation (initState 4 16 0 true) (Or.inl (le_refl 0))).2.1,
   (tick_noop_of_guard_violation (initState 4 16 0 true) (Or.inl (le_refl 0))).2.2⟩

/-- C3 (counterexample): called with `columns = -4` (a non-positive
column count) on a 512 by 512 sheet with 16 frames, the source's
resolution does not fail: it returns the frame geometry with width and
height `-128`.  The specification-side checked resolver fails with
`InvalidGeometry` on the same input. -/
theorem resolve_no_failure_counterexample :
    resolve 512 512 16 (-4) = ⟨-128, -128⟩ ∧
      resolveChecked 512 512 16 (-4) =
        Except.error GeometryError.invalidGeometry := by
  constructor
  · simp only [resolve, effectiveRows, Dimensions.mk.injEq]
    constructor <;> norm_num [Int.ceil_neg]
  · unfold resolveChecked
    rw [if_pos (Or.inl (by norm_num))]

/-- C3 (amended): the resolution performs no validation and has no
failure path: for a negative column count and a positive sheet width it
still returns a `FrameGeometry` value, whose frame width is negative,
exactly where the specification's checked resolver reports
`InvalidGeometry`. -/
theorem resolve_returns_value_on_bad_input (w h : ℚ) (frames columns : ℤ)
    (hc : columns < 0) (hw : 0 < w) :
    (resolve w h frames columns).width < 0 ∧
      resolveChecked w h frames columns =
        Except.error GeometryError.invalidGeometry := by
  have hcq : ((columns : ℤ) : ℚ) < 0 := by exact_mod_cast hc
  refine ⟨div_neg_of_pos_of_neg hw hcq, ?_⟩
  unfold resolveChecked
  rw [if_pos (Or.inl hc.le)]

/-- Witness for the amended C3 theorem at the counterexample's input. -/
theorem resolve_returns_value_on_bad_input_witness :
    (resolve 512 512 16 (-4)).width < 0 ∧
      resolveChecked 512 512 16 (-4) =
        Except.error GeometryError.invalidGeometry :=
  resolve_returns_value_on_bad_input 512 512 16 (-4) (by norm_num) (by norm_num)

/-- C4: the grid-input handler `Math.max(1, parseInt(value, 10))` clamps
every numeric input to an integer at least 1, but `Math.max` propagates
`NaN`: a value with no leading digits — such as the cleared field, whose
value is the empty string — produces `NaN` (`none`), which is neither an
integer nor at least 1, and reaches the playback core as `columns` or
`rows`. -/
theorem clampGridInput_nan_escape :
    clampGridInput "" = none ∧ clampGridInput "abc" = none ∧
      clampGridInput "5" = some 5 ∧ clampGridInput "-3" = some 1 ∧
      clampGridInput "0" = some 1 := by
  refine ⟨rfl, rfl, ?_, ?_, ?_⟩ <;> decide

/-- C5: for positive sheet dimensions, frame count and column count, the
resolved geometry tiles the sheet exactly: `frameWidth` times the column
count recovers the sheet width and `frameHeight` times the effective row
count recovers the sheet height, with the effective row count recomputed
as the ceiling of `frameCount / columns` — the declared row count is not
an input of `resolve`. -/
theorem resolve_exact_tiling (w h : ℚ) (frames columns : ℤ)
    (hw : 0 < w) (hh : 0 < h) (hf : 0 < frames) (hc : 0 < columns) :
    (resolve w h frames columns).width * ((columns : ℤ) : ℚ) = w ∧
      (resolve w h frames columns).height *
        ((effectiveRows frames columns : ℤ) : ℚ) = h ∧
      effectiveRows frames columns = ⌈(frames : ℚ) / (columns : ℚ)⌉ := by
  have hcq : ((columns : ℤ) : ℚ) ≠ 0 := by
    exact_mod_cast hc.ne'
  have hr : 0 < effectiveRows frames columns := by
    unfold effectiveRows
    rw [Int.ceil_pos]
    exact div_pos (by exact_mod_cast hf) (by exact_mod_cast hc)
  have hrq : ((effectiveRows frames columns : ℤ) : ℚ) ≠ 0 := by
    exact_mod_cast hr.ne'
  exact ⟨div_mul_cancel₀ w hcq, div_mul_cancel₀ h hrq, rfl⟩

/-- Witness for the C5 theorem: the end-to-end example of the
specification, a 512 by 512 sheet in a 4 by 4 grid of 16 frames. -/
theorem resolve_exact_tiling_witness :
    (resolve 512 512 16 4).width * ((4 : ℤ) : ℚ) = 512 ∧
      (resolve 512 512 16 4).height * ((effectiveRows 16 4 : ℤ) : ℚ) = 512 ∧
      effectiveRows 16 4 = ⌈((16 : ℤ) : ℚ) / ((4 : ℤ) : ℚ)⌉ :=
  resolve_exact_tiling 512 512 16 4 (by norm_num) (by norm_num)
    (by decide) (by decide)

/-- A playing state sitting on the last frame of a 4 by 4 grid of 16
frames, with resolved 128 by 128 frame geometry. -/
def lastFrameState : PlayerState :=
  { columns := 4
  , frames := 16
  , fps := 12
  , isPlaying := true
  , spriteDimensions := ⟨512, 512⟩
  , frameDimensions := ⟨128, 128⟩
  , currentFrame := 15
  , backgroundPosition := (-384, -384) }

/-- C6: while the guard of the animation effect holds, a tick sets the
frame index to `(currentFrame + 1) mod frames`; starting inside
`[0, frames)` the index stays inside `[0, frames)`, and from the last
frame `frames - 1` one tick wraps around to 0. -/
theorem tick_advances_index_mod (s : PlayerState)
    (hg : tickGuard s = true) (h0 : 0 ≤ s.currentFrame)
    (hlt : s.currentFrame < s.frames) :
    (tick s).currentFrame = (s.currentFrame + 1) % s.frames ∧
      0 ≤ (tick s).currentFrame ∧ (tick s).currentFrame < s.frames ∧
      (s.currentFrame = s.frames - 1 → (tick s).currentFrame = 0) := by
  have hfpos : 0 < s.frames := lt_of_le_of_lt h0 hlt
  have htick : (tick s).currentFrame = Int.tmod (s.currentFrame + 1) s.frames := by
    simp [tick, hg]
  have hrw : Int.tmod (s.currentFrame + 1) s.frames = (s.currentFrame + 1) % s.frames :=
    Int.tmod_eq_emod (by omega) hfpos.le
  have hmain : (tick s).currentFrame = (s.currentFrame + 1) % s.frames :=
    htick.trans hrw
  refine ⟨hmain, ?_, ?_, ?_⟩
  · rw [hmain]
    exact Int.emod_nonneg _ hfpos.ne'
  · rw [hmain]
    exact Int.emod_lt_of_pos _ hfpos
  · intro hlast
    rw [hmain, hlast]
    have h1 : s.frames - 1 + 1 = s.frames := by omega
    rw [h1, Int.emod_self]

/-- Witness for the C6 theorem: on the last frame of a 16-frame sheet a
single tick wraps the index around to 0. -/
theorem tick_advances_index_mod_witness :
    (tick lastFrameState).currentFrame = (15 + 1) % 16 ∧
      0 ≤ (tick lastFrameState).currentFrame ∧
      (tick lastFrameState).currentFrame < 16 ∧
      ((15 : ℤ) = 16 - 1 → (tick lastFrameState).currentFrame = 0) := by
  have hg : tickGuard lastFrameState = true := by
    rw [tickGuard_eq_true]
    refine ⟨rfl, ?_, ?_, ?_⟩ <;> norm_num [lastFrameState]
  exact tick_advances_index_mod lastFrameState hg (by decide) (by decide)

lemma frameOffset_nonpos (index columns : ℤ) (d : Dimensions)
    (hi : 0 ≤ index) (hc : 0 ≤ columns)
    (hw : 0 ≤ d.width) (hh : 0 ≤ d.height) :
    (frameOffset index columns d).1 ≤ 0 ∧ (frameOffset index columns d).2 ≤ 0 := by
  constructor
  · have h1 : (0 : ℚ) ≤ ((Int.tmod index columns : ℤ) : ℚ) := by
      exact_mod_cast Int.tmod_nonneg columns hi
    simp only [frameOffset, neg_mul]
    exact neg_nonpos.mpr (mul_nonneg h1 hw)
  · have h2 : (0 : ℚ) ≤ ((⌊(index : ℚ) / (columns : ℚ)⌋ : ℤ) : ℚ) := by
      have : (0 : ℤ) ≤ ⌊(index : ℚ) / (columns : ℚ)⌋ :=
        Int.floor_nonneg.mpr
          (div_nonneg (by exact_mod_cast hi) (by exact_mod_cast hc))
      exact_mod_cast this
    simp only [frameOffset, neg_mul]
    exact neg_nonpos.mpr (mul_nonneg h2 hh)

/-- C7: a tick writes exactly the derived background position
`(-(i mod columns) * frameWidth, -(floor (i / columns)) * frameHeight)`
for the new index `i`, and with a nonnegative index, nonnegative column
count and nonnegative frame dimensions both offset components are
nonpositive — for the index the tick produced as well as for every
nonnegative index. -/
theorem tick_offset_derivation (s : PlayerState)
    (hg : tickGuard s = true) (h0 : 0 ≤ s.currentFrame)
    (hlt : s.currentFrame < s.frames) (hc : 0 ≤ s.columns)
    (hw : 0 ≤ s.frameDimensions.width) (hh : 0 ≤ s.frameDimensions.height) :
    (tick s).backgroundPosition =
        frameOffset (tick s).currentFrame s.columns s.frameDimensions ∧
      (tick s).backgroundPosition.1 ≤ 0 ∧
      (tick s).backgroundPosition.2 ≤ 0 ∧
      (∀ i : ℤ, 0 ≤ i →
        (frameOffset i s.columns s.frameDimensions).1 ≤ 0 ∧
        (frameOffset i s.columns s.frameDimensions).2 ≤ 0) := by
  have htick : (tick s).currentFrame = Int.tmod (s.currentFrame + 1) s.frames := by
    simp [tick, hg]
  have hnext : 0 ≤ (tick s).currentFrame := by
    rw [htick]
    exact Int.tmod_nonneg _ (by omega)
  have hpos : (tick s).backgroundPosition =
      frameOffset (tick s).currentFrame s.columns s.frameDimensions := by
    simp [tick, hg]
  refine ⟨hpos, ?_, ?_, fun i hi => frameOffset_nonpos i s.columns s.frameDimensions hi hc hw hh⟩
  · rw [hpos]
    exact (frameOffset_nonpos _ _ _ hnext hc hw hh).1
  · rw [hpos]
    exact (frameOffset_nonpos _ _ _ hnext hc hw hh).2

/-- Witness for the C7 theorem at the concrete last-frame state. -/
theorem tick_offset_derivation_witness :
    (tick lastFrameState).backgroundPosition =
        frameOffset (tick lastFrameState).currentFrame lastFrameState.columns
          lastFrameState.frameDimensions ∧
      (tick lastFrameState).backgroundPosition.1 ≤ 0 ∧
      (tick lastFrameState).backgroundPosition.2 ≤ 0 ∧
      (∀ i : ℤ, 0 ≤ i →
        (frameOffset i lastFrameState.columns lastFrameState.frameDimensions).1 ≤ 0 ∧
        (frameOffset i lastFrameState.columns lastFrameState.frameDimensions).2 ≤ 0) := by
  have hg : tickGuard lastFrameState = true := by
    rw [tickGuard_eq_true]
    refine ⟨rfl, ?_, ?_, ?_⟩ <;> norm_num [lastFrameState]
  exact tick_offset_derivation lastFrameState hg (by decide) (by decide)
    (by decide) (by norm_num [lastFrameState]) (by norm_num [lastFrameState])

/-- C8: the aspect-ratio classification always lands in the five
canonical labels, and any two grids whose `columns / rows` ratios are
equal — in particular any rescaling of one grid — classify
identically. -/
theorem classify_canonical_and_ratio_invariant (c r c' r' : ℤ)
    (hratio : (c' : ℚ) / (r' : ℚ) = (c : ℚ) / (r : ℚ)) :
    classify c' r' = classify c r ∧ classify c r ∈ canonicalRatios := by
  constructor
  · unfold classify
    rw [hratio]
  · unfold classify classifyRatio canonicalRatios
    split_ifs <;> decide

/-- Witness for the C8 theorem: the specification's example, the grids
(4, 4) and (8, 8). -/
theorem classify_canonical_and_ratio_invariant_witness :
    classify 8 8 = classify 4 4 ∧ classify 4 4 ∈ canonicalRatios :=
  classify_canonical_and_ratio_invariant 4 4 8 8 (by norm_num)

/-- C9: changing `fps` while the clock is Running (with usable geometry)
leaves `currentFrame` untouched and the re-run effect installs the timer
at the new period `1000 / fps`. -/
theorem setFps_updates_period_preserves_index (s : PlayerState) (v : ℚ)
    (hp : s.isPlaying = true) (hw : s.frameDimensions.width ≠ 0)
    (hh : s.frameDimensions.height ≠ 0) (hv : 0 < v) :
    (setFps s v).currentFrame = s.currentFrame ∧
      activeTimer (setFps s v) = some (1000 / v) := by
  have hg : tickGuard (setFps s v) = true :=
    (tickGuard_eq_true _).mpr ⟨hp, hw, hh, hv⟩
  refine ⟨rfl, ?_⟩
  unfold activeTimer
  rw [hg]
  simp [setFps]

/-- Witness for the C9 theorem: raising the fps of the concrete
mid-playback state from 12 to 24. -/
theorem setFps_updates_period_preserves_index_witness :
    (setFps midPlaybackState 24).currentFrame = midPlaybackState.currentFrame ∧
      activeTimer (setFps midPlaybackState 24) = some (1000 / 24) :=
  setFps_updates_period_preserves_index midPlaybackState 24 rfl
    (by norm_num [midPlaybackState]) (by norm_num [midPlaybackState])
    (by norm_num)

/-- C10: while the resolved frame width is still its initial value 0 the
component renders nothing — `render` is `none` — and a freshly mounted
player starts in exactly that state, so the display surface is never
handed a view with the unresolved zero geometry. -/
theorem render_none_while_unresolved (s : PlayerState)
    (columns frames : ℤ) (fps : ℚ) (isPlaying : Bool)
    (h : s.frameDimensions.width = 0) :
    render s = none ∧
      (initState columns frames fps isPlaying).frameDimensions.width = 0 ∧
      render (initState columns frames fps isPlaying) = none := by
  refine ⟨?_, rfl, ?_⟩
  · unfold render
    rw [if_pos h]
  · unfold render
    exact if_pos rfl

/-- Witness for the C10 theorem at two freshly mounted players. -/
theorem render_none_while_unresolved_witness :
    render (initState 8 64 30 false) = none ∧
      (initState 4 16 12 true).frameDimensions.width = 0 ∧
      render (initState 4 16 12 true) = none :=
  render_none_while_unresolved (initState 8 64 30 false) 4 16 12 true rfl

end SpritePlayer
